import Mathlib

/-!
Verification of the IP-location/privacy-dashboard page (src/pages/Index.tsx).
The page has three pieces of logic: `fetchIPInfo` (network record with
fallback), `getBrowserInfo` (user-agent parsing) and `calculatePrivacyScore`
(deduction-table scoring with a three-level classification). Each is embedded
below as a pure Lean function; JavaScript truthiness of the provider fields
is modelled explicitly (missing or empty string / zero), and the ambient
values the score reads (location.protocol, navigator.cookieEnabled,
navigator.geolocation) are threaded as an explicit environment record.
-/

/-- Substring test on character lists: JavaScript `String.prototype.includes`.
True when `pat` occurs contiguously in the list. -/
def containsSub (pat : List Char) : List Char → Bool
  | [] => pat.isPrefixOf ([] : List Char)
  | c :: rest => pat.isPrefixOf (c :: rest) || containsSub pat rest

/-- `s.includes(pat)` on strings. -/
def strContains (s pat : String) : Bool :=
  containsSub pat.data s.data

/-- The normalized network record (interface IPInfo of Index.tsx).
Coordinates are JSON numbers, modelled as exact rationals. -/
structure IPInfo where
  ip : String
  country : String
  region : String
  city : String
  isp : String
  timezone : String
  lat : Rat
  lon : Rat
  deriving DecidableEq, Repr

/-- The raw JSON body of the geolocation provider: each expected field either
absent (`none`) or present with its JSON value. -/
structure ProviderResponse where
  ip : Option String
  country_name : Option String
  region : Option String
  city : Option String
  org : Option String
  timezone : Option String
  latitude : Option Rat
  longitude : Option Rat
  deriving DecidableEq, Repr

/-- JavaScript `v || d` for a string field: a missing field or the falsy
empty string yields the default. -/
def jsOrStr (v : Option String) (d : String) : String :=
  match v with
  | none => d
  | some s => if s = "" then d else s

/-- JavaScript `v || d` for a numeric field: a missing field or the falsy
value 0 yields the default. -/
def jsOrNum (v : Option Rat) (d : Rat) : Rat :=
  match v with
  | none => d
  | some x => if x = 0 then d else x

/-- The field mapping of `fetchIPInfo`s success path (`formattedData`). -/
def formatIPInfo (data : ProviderResponse) : IPInfo :=
  { ip := jsOrStr data.ip "Unknown"
    country := jsOrStr data.country_name "Unknown"
    region := jsOrStr data.region "Unknown"
    city := jsOrStr data.city "Unknown"
    isp := jsOrStr data.org "Unknown"
    timezone := jsOrStr data.timezone "Unknown"
    lat := jsOrNum data.latitude 0
    lon := jsOrNum data.longitude 0 }

/-- The fixed fallback record of `fetchIPInfo`s catch branch (`fallbackData`). -/
def fallbackData : IPInfo :=
  { ip := "192.168.1.1"
    country := "Demo Country"
    region := "Demo Region"
    city := "Demo City"
    isp := "Demo ISP"
    timezone := "UTC"
    lat := 0
    lon := 0 }

/-- A resolved HTTP response: its success flag (`Response.ok`, the status
class) and its body when it parses as JSON (`none` = `response.json()`
throws). -/
structure HttpResponse where
  ok : Bool
  jsonBody : Option ProviderResponse
  deriving DecidableEq, Repr

/-- Outcome of `await fetch(...)`: the promise rejects (network error) or
resolves with a response. -/
inductive FetchAttempt where
  | networkError : FetchAttempt
  | response : HttpResponse → FetchAttempt
  deriving DecidableEq, Repr

/-- `fetchIPInfo` of Index.tsx as a function of the fetch outcome: a rejected
request or a body `response.json()` cannot parse lands in the catch branch
(the fallback record); any JSON body is formatted. The status flag is never
inspected by the source. -/
def fetchIPInfo : FetchAttempt → IPInfo
  | FetchAttempt.networkError => fallbackData
  | FetchAttempt.response r =>
    match r.jsonBody with
    | none => fallbackData
    | some data => formatIPInfo data

/-- First leftmost match of the regex `pat(\d+)`: scan positions left to
right; where `pat` occurs and at least one digit follows, return the maximal
digit run (the capture group of `userAgent.match(/pat(\d+)/)?.[1]`). -/
def digitsAfter (pat : List Char) : List Char → Option (List Char)
  | [] => none
  | c :: rest =>
    if pat.isPrefixOf (c :: rest) then
      if ((c :: rest).drop pat.length).takeWhile Char.isDigit = [] then
        digitsAfter pat rest
      else
        some (((c :: rest).drop pat.length).takeWhile Char.isDigit)
    else
      digitsAfter pat rest

/-- `userAgent.match(/pat(\d+)/)?.[1] || 'Unknown'`. -/
def matchVersion (pat userAgent : String) : String :=
  match digitsAfter pat.data userAgent.data with
  | none => "Unknown"
  | some ds => String.mk ds

/-- The parsed browser/device identity computed by `getBrowserInfo`
(the fields of interface BrowserInfo that involve logic: family, version,
operating system). -/
structure BrowserIdent where
  browser : String
  version : String
  os : String
  deriving DecidableEq, Repr

/-- The OS branch of `getBrowserInfo`: ordered substring tests, first match
wins. -/
def detectOS (userAgent : String) : String :=
  if strContains userAgent "Windows" then "Windows"
  else if strContains userAgent "Mac" then "macOS"
  else if strContains userAgent "Linux" then "Linux"
  else if strContains userAgent "Android" then "Android"
  else if strContains userAgent "iOS" then "iOS"
  else "Unknown"

/-- `getBrowserInfo` of Index.tsx restricted to the user-agent parsing:
ordered family tests Chrome, Firefox, Safari, Edge with the family-specific
version regex, and the OS tests. -/
def getBrowserInfo (userAgent : String) : BrowserIdent :=
  let bv : String × String :=
    if strContains userAgent "Chrome" then ("Chrome", matchVersion "Chrome/" userAgent)
    else if strContains userAgent "Firefox" then ("Firefox", matchVersion "Firefox/" userAgent)
    else if strContains userAgent "Safari" then ("Safari", matchVersion "Version/" userAgent)
    else if strContains userAgent "Edge" then ("Edge", matchVersion "Edge/" userAgent)
    else ("Unknown", "Unknown")
  { browser := bv.1, version := bv.2, os := detectOS userAgent }

/-- The three-level classification set by `calculatePrivacyScore`. -/
inductive SecurityLevel where
  | low : SecurityLevel
  | medium : SecurityLevel
  | high : SecurityLevel
  deriving DecidableEq, Repr

/-- What one run of `calculatePrivacyScore` writes: the numeric score
(`setPrivacyScore`) and the classification (`setSecurityLevel`). -/
structure ScoreResult where
  score : Int
  level : SecurityLevel
  deriving DecidableEq, Repr

/-- The ambient environment values `calculatePrivacyScore` reads at call
time: `location.protocol`, `navigator.cookieEnabled`, and whether
`navigator.geolocation` is a truthy (present) object. -/
structure Env where
  protocol : String
  cookieEnabled : Bool
  geolocation : Bool
  deriving DecidableEq, Repr

/-- `s.toLowerCase()`: the per-character lowering that `String.toLower`
performs, written over the character list so it evaluates by structural
recursion. -/
def lowerStr (s : String) : String :=
  String.mk (s.data.map Char.toLower)

/-- The provider-name condition of the first classification branch:
`isp.toLowerCase().includes('google') || isp.toLowerCase().includes('cloudflare')`. -/
def gcCheck (isp : String) : Bool :=
  strContains (lowerStr isp) "google" || strContains (lowerStr isp) "cloudflare"

/-- The provider-name condition of the second classification branch:
`isp.toLowerCase().includes('residential')`. -/
def resCheck (isp : String) : Bool :=
  strContains (lowerStr isp) "residential"

/-- `calculatePrivacyScore` of Index.tsx: sequential deductions from 100,
the provider-name branch choosing the level, and `Math.max(score, 0)`. -/
def calculatePrivacyScore (env : Env) (ipData : IPInfo) : ScoreResult :=
  let s0 : Int := 100
  let s1 : Int := if !(strContains env.protocol "https") then s0 - 20 else s0
  let s2 : Int := if env.cookieEnabled then s1 - 10 else s1
  let s3 : Int := if env.geolocation then s2 - 15 else s2
  if gcCheck ipData.isp then
    { score := max (s3 - 5) 0, level := SecurityLevel.high }
  else if resCheck ipData.isp then
    { score := max (s3 - 15) 0, level := SecurityLevel.low }
  else
    { score := max s3 0, level := SecurityLevel.medium }

/-- A provider body whose every field is absent. -/
def emptyBodyResponse : ProviderResponse :=
  { ip := none, country_name := none, region := none, city := none,
    org := none, timezone := none, latitude := none, longitude := none }

/-- The shape of a version string produced by the family regex `pat(\d+)`:
either the sentinel, or a nonempty all-digit string that occurs in the user
agent immediately after an occurrence of `pat`. -/
def versionShape (pat userAgent v : String) : Prop :=
  v = "Unknown" ∨
    (v.data ≠ [] ∧ v.data.all Char.isDigit = true ∧
      containsSub (pat.data ++ v.data) userAgent.data = true)

theorem takeWhile_isPrefixOf (p : Char → Bool) (l : List Char) :
    (l.takeWhile p).isPrefixOf l = true := by
  induction l with
  | nil => rfl
  | cons c rest ih =>
    cases hp : p c with
    | false => simp [List.takeWhile_cons, hp, List.isPrefixOf]
    | true => simp [List.takeWhile_cons, hp, List.isPrefixOf, ih]

theorem isPrefixOf_append_takeWhile (p : Char → Bool) :
    ∀ (pat l : List Char), pat.isPrefixOf l = true →
      (pat ++ (l.drop pat.length).takeWhile p).isPrefixOf l = true := by
  intro pat
  induction pat with
  | nil =>
    intro l _
    simpa using takeWhile_isPrefixOf p l
  | cons a pa ih =>
    intro l hp
    cases l with
    | nil => simp [List.isPrefixOf] at hp
    | cons b t =>
      simp only [List.isPrefixOf, Bool.and_eq_true] at hp
      obtain ⟨hab, hpt⟩ := hp
      simpa [List.isPrefixOf, hab] using ih t hpt

theorem isPrefixOf_containsSub (sub l : List Char) (h : sub.isPrefixOf l = true) :
    containsSub sub l = true := by
  cases l with
  | nil => simpa [containsSub] using h
  | cons c rest => simp [containsSub, h]

theorem containsSub_cons (sub : List Char) (c : Char) (rest : List Char)
    (h : containsSub sub rest = true) : containsSub sub (c :: rest) = true := by
  simp [containsSub, h]

theorem digitsAfter_some (pat : List Char) :
    ∀ (l ds : List Char), digitsAfter pat l = some ds →
      ds ≠ [] ∧ ds.all Char.isDigit = true ∧ containsSub (pat ++ ds) l = true := by
  intro l
  induction l with
  | nil => intro ds h; simp [digitsAfter] at h
  | cons c rest ih =>
    intro ds h
    rw [digitsAfter] at h
    cases hp : pat.isPrefixOf (c :: rest) with
    | false =>
      rw [hp] at h
      simp only [Bool.false_eq_true, if_false] at h
      obtain ⟨h1, h2, h3⟩ := ih ds h
      exact ⟨h1, h2, containsSub_cons _ _ _ h3⟩
    | true =>
      rw [hp] at h
      simp only [if_true] at h
      by_cases hd : ((c :: rest).drop pat.length).takeWhile Char.isDigit = []
      · rw [if_pos hd] at h
        obtain ⟨h1, h2, h3⟩ := ih ds h
        exact ⟨h1, h2, containsSub_cons _ _ _ h3⟩
      · rw [if_neg hd] at h
        obtain rfl : ((c :: rest).drop pat.length).takeWhile Char.isDigit = ds :=
          Option.some.inj h
        refine ⟨hd, List.all_takeWhile, ?_⟩
        exact isPrefixOf_containsSub _ _ (isPrefixOf_append_takeWhile Char.isDigit pat (c :: rest) hp)

theorem matchVersion_shape (pat userAgent : String) :
    versionShape pat userAgent (matchVersion pat userAgent) := by
  unfold versionShape matchVersion
  cases h : digitsAfter pat.data userAgent.data with
  | none => exact Or.inl rfl
  | some ds =>
    obtain ⟨h1, h2, h3⟩ := digitsAfter_some _ _ _ h
    exact Or.inr ⟨h1, h2, h3⟩

/-- C1: the privacy scorer starts from 100 and applies the fixed cumulative
deduction table (insecure transport -20, cookies -10, geolocation -15,
google/cloudflare provider -5 else residential provider -15), floored at 0;
in particular the insecure/cookies/geolocation run on provider
"ACME Residential Broadband" scores 40 at level low, and the secure, flagless
run on provider "Cloudflare, Inc." scores 95 at level high. -/
theorem C1_privacy_score_deduction_table (env : Env) (r : IPInfo) :
    ((calculatePrivacyScore env r).score =
      max (100 - (if strContains env.protocol "https" then 0 else 20)
              - (if env.cookieEnabled then 10 else 0)
              - (if env.geolocation then 15 else 0)
              - (if gcCheck r.isp then 5 else if resCheck r.isp then 15 else 0)) 0)
    ∧ calculatePrivacyScore { protocol := "http:", cookieEnabled := true, geolocation := true }
        { ip := "203.0.113.7", country := "X", region := "X", city := "X",
          isp := "ACME Residential Broadband", timezone := "UTC", lat := 0, lon := 0 }
        = { score := 40, level := SecurityLevel.low }
    ∧ calculatePrivacyScore { protocol := "https:", cookieEnabled := false, geolocation := false }
        { ip := "203.0.113.7", country := "X", region := "X", city := "X",
          isp := "Cloudflare, Inc.", timezone := "UTC", lat := 0, lon := 0 }
        = { score := 95, level := SecurityLevel.high } := by
  refine ⟨?_, by decide, by decide⟩
  cases h1 : strContains env.protocol "https" <;>
    cases h2 : env.cookieEnabled <;>
      cases h3 : env.geolocation <;>
        cases h4 : gcCheck r.isp <;>
          cases h5 : resCheck r.isp <;>
            simp [calculatePrivacyScore, h1, h2, h3, h4, h5]

/-- C2: the classification level depends only on the provider-name string,
never on the ambient transport/cookie/geolocation flags: google or cloudflare
(case-insensitive) gives high, else residential gives low, else medium; and a
provider name passing the google/cloudflare test takes that branch even when
it also contains "residential", yielding level high and only the -5
provider deduction. -/
theorem C2_level_depends_only_on_provider (e1 e2 : Env) (r : IPInfo) :
    ((calculatePrivacyScore e1 r).level = (calculatePrivacyScore e2 r).level)
    ∧ ((calculatePrivacyScore e1 r).level =
        (if gcCheck r.isp then SecurityLevel.high
         else if resCheck r.isp then SecurityLevel.low
         else SecurityLevel.medium))
    ∧ (gcCheck r.isp = true →
        (calculatePrivacyScore e1 r).level = SecurityLevel.high
        ∧ (calculatePrivacyScore e1 r).score =
            max (100 - (if strContains e1.protocol "https" then 0 else 20)
                    - (if e1.cookieEnabled then 10 else 0)
                    - (if e1.geolocation then 15 else 0) - 5) 0) := by
  refine ⟨?_, ?_, ?_⟩
  · cases h4 : gcCheck r.isp <;> cases h5 : resCheck r.isp <;>
      simp [calculatePrivacyScore, h4, h5]
  · cases h4 : gcCheck r.isp <;> cases h5 : resCheck r.isp <;>
      simp [calculatePrivacyScore, h4, h5]
  · intro h4
    cases h1 : strContains e1.protocol "https" <;>
      cases h2 : e1.cookieEnabled <;>
        cases h3 : e1.geolocation <;>
          simp [calculatePrivacyScore, h1, h2, h3, h4]

/-- C3: for every environment and record the score is an integer in
[0, 100]: floored at 0 by `max` and bounded above by the starting value 100
since deductions only subtract. -/
theorem C3_score_in_range (env : Env) (r : IPInfo) :
    0 ≤ (calculatePrivacyScore env r).score
    ∧ (calculatePrivacyScore env r).score ≤ 100 := by
  cases h1 : strContains env.protocol "https" <;>
    cases h2 : env.cookieEnabled <;>
      cases h3 : env.geolocation <;>
        cases h4 : gcCheck r.isp <;>
          cases h5 : resCheck r.isp <;>
            simp [calculatePrivacyScore, h1, h2, h3, h4, h5]

/-- C8: the scorer is deterministic: two runs on the same network record and
the same ambient environment flags produce the same score and level. -/
theorem C8_score_deterministic (e1 e2 : Env) (r1 r2 : IPInfo)
    (he : e1 = e2) (hr : r1 = r2) :
    calculatePrivacyScore e1 r1 = calculatePrivacyScore e2 r2 := by
  subst he
  subst hr
  rfl

/-- C8 witness: determinism applied at a concrete environment and record. -/
theorem C8_score_deterministic_witness :
    calculatePrivacyScore { protocol := "https:", cookieEnabled := true, geolocation := false }
        fallbackData
      = calculatePrivacyScore { protocol := "https:", cookieEnabled := true, geolocation := false }
        fallbackData :=
  C8_score_deterministic _ _ _ _ rfl rfl

/-- C9: the score is always at least 40: the two provider-name deductions are
mutually exclusive, so total deductions never exceed 20 + 10 + 15 + 15 = 60
and the floor at 0 never binds. -/
theorem C9_score_at_least_forty (env : Env) (r : IPInfo) :
    40 ≤ (calculatePrivacyScore env r).score := by
  cases h1 : strContains env.protocol "https" <;>
    cases h2 : env.cookieEnabled <;>
      cases h3 : env.geolocation <;>
        cases h4 : gcCheck r.isp <;>
          cases h5 : resCheck r.isp <;>
            simp [calculatePrivacyScore, h1, h2, h3, h4, h5]

/-- C4 counterexample: a resolved response with a non-success HTTP status but
a parseable JSON body does not produce the fixed fallback record — the body
is formatted (every field "Unknown"/0 here) because the source never inspects
the status, so the claim that any non-success status yields the fallback
record is false. -/
theorem C4_counterexample :
    fetchIPInfo (FetchAttempt.response { ok := false, jsonBody := some emptyBodyResponse })
      = { ip := "Unknown", country := "Unknown", region := "Unknown", city := "Unknown",
          isp := "Unknown", timezone := "Unknown", lat := 0, lon := 0 }
    ∧ fetchIPInfo (FetchAttempt.response { ok := false, jsonBody := some emptyBodyResponse })
      ≠ fallbackData := by
  constructor
  · decide
  · decide

/-- C4 amended: the fetcher is total and never fails outward; a rejected
request or a body that does not parse as JSON produces exactly the fixed
fallback record; a resolved response with any JSON body — regardless of its
HTTP status, which is never inspected — is mapped through the field
formatter. -/
theorem C4_fetch_total_fallback :
    fetchIPInfo FetchAttempt.networkError = fallbackData
    ∧ (∀ ok : Bool, fetchIPInfo (FetchAttempt.response { ok := ok, jsonBody := none }) = fallbackData)
    ∧ (∀ (ok : Bool) (data : ProviderResponse),
        fetchIPInfo (FetchAttempt.response { ok := ok, jsonBody := some data })
          = formatIPInfo data)
    ∧ fallbackData =
        { ip := "192.168.1.1", country := "Demo Country", region := "Demo Region",
          city := "Demo City", isp := "Demo ISP", timezone := "UTC", lat := 0, lon := 0 } := by
  exact ⟨rfl, fun _ => rfl, fun _ _ => rfl, rfl⟩

/-- C5: the success-path mapping applies a per-field fallback independently:
a missing or falsy (empty) string field resolves to "Unknown" and a missing
or falsy (zero) coordinate resolves to 0, while a present truthy field is
passed through unchanged — so no field of the result is ever absent. -/
theorem C5_per_field_fallback (r : ProviderResponse) :
    ((r.ip = none ∨ r.ip = some "") → (formatIPInfo r).ip = "Unknown")
    ∧ (∀ s, r.ip = some s → s ≠ "" → (formatIPInfo r).ip = s)
    ∧ ((r.country_name = none ∨ r.country_name = some "") → (formatIPInfo r).country = "Unknown")
    ∧ (∀ s, r.country_name = some s → s ≠ "" → (formatIPInfo r).country = s)
    ∧ ((r.region = none ∨ r.region = some "") → (formatIPInfo r).region = "Unknown")
    ∧ (∀ s, r.region = some s → s ≠ "" → (formatIPInfo r).region = s)
    ∧ ((r.city = none ∨ r.city = some "") → (formatIPInfo r).city = "Unknown")
    ∧ (∀ s, r.city = some s → s ≠ "" → (formatIPInfo r).city = s)
    ∧ ((r.org = none ∨ r.org = some "") → (formatIPInfo r).isp = "Unknown")
    ∧ (∀ s, r.org = some s → s ≠ "" → (formatIPInfo r).isp = s)
    ∧ ((r.timezone = none ∨ r.timezone = some "") → (formatIPInfo r).timezone = "Unknown")
    ∧ (∀ s, r.timezone = some s → s ≠ "" → (formatIPInfo r).timezone = s)
    ∧ ((r.latitude = none ∨ r.latitude = some 0) → (formatIPInfo r).lat = 0)
    ∧ (∀ x, r.latitude = some x → x ≠ 0 → (formatIPInfo r).lat = x)
    ∧ ((r.longitude = none ∨ r.longitude = some 0) → (formatIPInfo r).lon = 0)
    ∧ (∀ x, r.longitude = some x → x ≠ 0 → (formatIPInfo r).lon = x) := by
  refine ⟨?_, ?_, ?_, ?_, ?_, ?_, ?_, ?_, ?_, ?_, ?_, ?_, ?_, ?_, ?_, ?_⟩ <;>
    first
      | (rintro (h | h) <;> simp [formatIPInfo, jsOrStr, jsOrNum, h])
      | (intro s hs hne; simp [formatIPInfo, jsOrStr, jsOrNum, hs, hne])

/-- C6: browser family detection tests the user agent for the substrings
Chrome, Firefox, Safari, Edge in that fixed order, first match wins, with
the version taken from the family-specific digit pattern (Chrome/, Firefox/,
Version/ for Safari, Edge/) — each extracted version is either "Unknown" or
a nonempty digit run occurring right after the pattern in the user agent;
when no family matches, family and version are both "Unknown"; and a user
agent containing both "Chrome" and "Safari" classifies as Chrome. -/
theorem C6_browser_detection (ua : String) :
    (strContains ua "Chrome" = true →
      (getBrowserInfo ua).browser = "Chrome"
      ∧ (getBrowserInfo ua).version = matchVersion "Chrome/" ua
      ∧ versionShape "Chrome/" ua (getBrowserInfo ua).version)
    ∧ (strContains ua "Chrome" = false → strContains ua "Firefox" = true →
      (getBrowserInfo ua).browser = "Firefox"
      ∧ (getBrowserInfo ua).version = matchVersion "Firefox/" ua
      ∧ versionShape "Firefox/" ua (getBrowserInfo ua).version)
    ∧ (strContains ua "Chrome" = false → strContains ua "Firefox" = false →
        strContains ua "Safari" = true →
      (getBrowserInfo ua).browser = "Safari"
      ∧ (getBrowserInfo ua).version = matchVersion "Version/" ua
      ∧ versionShape "Version/" ua (getBrowserInfo ua).version)
    ∧ (strContains ua "Chrome" = false → strContains ua "Firefox" = false →
        strContains ua "Safari" = false → strContains ua "Edge" = true →
      (getBrowserInfo ua).browser = "Edge"
      ∧ (getBrowserInfo ua).version = matchVersion "Edge/" ua
      ∧ versionShape "Edge/" ua (getBrowserInfo ua).version)
    ∧ (strContains ua "Chrome" = false → strContains ua "Firefox" = false →
        strContains ua "Safari" = false → strContains ua "Edge" = false →
      (getBrowserInfo ua).browser = "Unknown" ∧ (getBrowserInfo ua).version = "Unknown")
    ∧ (strContains ua "Chrome" = true → strContains ua "Safari" = true →
      (getBrowserInfo ua).browser = "Chrome") := by
  refine ⟨?_, ?_, ?_, ?_, ?_, ?_⟩
  · intro h1
    refine ⟨?_, ?_, ?_⟩ <;> simp [getBrowserInfo, h1]
    exact matchVersion_shape "Chrome/" ua
  · intro h1 h2
    refine ⟨?_, ?_, ?_⟩ <;> simp [getBrowserInfo, h1, h2]
    exact matchVersion_shape "Firefox/" ua
  · intro h1 h2 h3
    refine ⟨?_, ?_, ?_⟩ <;> simp [getBrowserInfo, h1, h2, h3]
    exact matchVersion_shape "Version/" ua
  · intro h1 h2 h3 h4
    refine ⟨?_, ?_, ?_⟩ <;> simp [getBrowserInfo, h1, h2, h3, h4]
    exact matchVersion_shape "Edge/" ua
  · intro h1 h2 h3 h4
    constructor <;> simp [getBrowserInfo, h1, h2, h3, h4]
  · intro h1 _
    simp [getBrowserInfo, h1]

/-- C7: operating-system detection tests for the substrings Windows, Mac,
Linux, Android, iOS in that fixed order, first match wins, and yields
"Unknown" when none of the five occurs in the user agent. -/
theorem C7_os_detection (ua : String) :
    (strContains ua "Windows" = true → (getBrowserInfo ua).os = "Windows")
    ∧ (strContains ua "Windows" = false → strContains ua "Mac" = true →
        (getBrowserInfo ua).os = "macOS")
    ∧ (strContains ua "Windows" = false → strContains ua "Mac" = false →
        strContains ua "Linux" = true → (getBrowserInfo ua).os = "Linux")
    ∧ (strContains ua "Windows" = false → strContains ua "Mac" = false →
        strContains ua "Linux" = false → strContains ua "Android" = true →
        (getBrowserInfo ua).os = "Android")
    ∧ (strContains ua "Windows" = false → strContains ua "Mac" = false →
        strContains ua "Linux" = false → strContains ua "Android" = false →
        strContains ua "iOS" = true → (getBrowserInfo ua).os = "iOS")
    ∧ (strContains ua "Windows" = false → strContains ua "Mac" = false →
        strContains ua "Linux" = false → strContains ua "Android" = false →
        strContains ua "iOS" = false → (getBrowserInfo ua).os = "Unknown") := by
  refine ⟨?_, ?_, ?_, ?_, ?_, ?_⟩ <;>
    · intros
      simp [getBrowserInfo, detectOS, *]

/-- C10: a user agent containing both "Linux" and "Android" (and neither
"Windows" nor "Mac") is classified as Linux, never Android; the Android
result is reachable only for user agents containing "Android" and none of
"Windows", "Mac", "Linux". -/
theorem C10_android_shadowed_by_linux (ua : String) :
    (strContains ua "Linux" = true → strContains ua "Android" = true →
      strContains ua "Windows" = false → strContains ua "Mac" = false →
      (getBrowserInfo ua).os = "Linux" ∧ (getBrowserInfo ua).os ≠ "Android")
    ∧ ((getBrowserInfo ua).os = "Android" →
      strContains ua "Android" = true ∧ strContains ua "Windows" = false
      ∧ strContains ua "Mac" = false ∧ strContains ua "Linux" = false) := by
  constructor
  · intro hL _ hW hM
    constructor <;> simp [getBrowserInfo, detectOS, hL, hW, hM]
  · intro h
    simp only [getBrowserInfo, detectOS] at h
    cases hW : strContains ua "Windows" <;> rw [hW] at h <;> simp at h
    cases hM : strContains ua "Mac" <;> rw [hM] at h <;> simp at h
    cases hL : strContains ua "Linux" <;> rw [hL] at h <;> simp at h
    cases hA : strContains ua "Android" <;> rw [hA] at h <;> simp at h
    · cases hI : strContains ua "iOS" <;> rw [hI] at h <;> simp at h
    · exact ⟨rfl, rfl, rfl, rfl⟩
